import Mathlib

/-!
Shallow embedding of the EcoSim frontend (src/frontend/src and the unnamed
frontend components) together with a spec-modelled backend load operation.

TypeScript `number` fields are embedded as `ℚ` (all arithmetic the embedded
code performs on them is exact field arithmetic) except fields the data model
declares to be integers, which are embedded as `ℤ`.  Optional / possibly
absent JSON fields are embedded as `Option`; JavaScript truthiness of a
numeric field `v` is `v ≠ 0`, of an object or array field it is presence.
-/

namespace EcoSim

/-- Diet of a species, from `types.ts` (`DietType`). -/
inductive DietType where
  | herbivore
  | carnivore
  | omnivore
  | producer
deriving DecidableEq, Repr

/-- Biome of a tile, from `types.ts` (`BiomeType`). -/
inductive BiomeType where
  | grassland
  | forest
  | desert
  | tundra
  | wetland
  | mountain
deriving DecidableEq, Repr

/-- A species, from `types.ts` (`Species`).  `population` is an integer per
the data model; the rate fields are arbitrary numbers. -/
structure Species where
  name : String
  population : ℤ
  diet : DietType
  prey : List String
  predators : List String
  preferred_biome : BiomeType
  reproduction_rate : ℚ
  territory_size : ℚ
deriving DecidableEq, Repr

/-- A terrain tile, from `types.ts` (`Tile`). -/
structure Tile where
  x : ℤ
  y : ℤ
  biome : BiomeType
  elevation : ℚ
  water_level : ℚ
  vegetation : ℚ
  species_present : List String
deriving DecidableEq, Repr

/-- The simulation state, from `types.ts` (`EcosystemState`). -/
structure EcosystemState where
  turn : ℤ
  grid_size : ℤ
  tiles : List Tile
  species : List Species
  season : String
  temperature : ℚ
  events_log : List String
deriving DecidableEq, Repr

/-- A structured simulation event, from `types.ts` (`SimulationEvent`). -/
structure SimulationEvent where
  description : String
  affected_species : List String
  affected_tiles : List (ℤ × ℤ)
  severity : String
deriving DecidableEq, Repr

/-- Result of one advance call, from `types.ts` (`SimulationResult`). -/
structure SimulationResult where
  new_state : EcosystemState
  events : List SimulationEvent
  narration : String
  warnings : List String
deriving DecidableEq, Repr

/-- The intervention object the frontend sends, from `types.ts`
(`InterventionRequest`): field `action` is required, `details` optional. -/
structure InterventionRequest where
  action : String
  details : Option String
deriving DecidableEq, Repr

/-- The save document, from `App.tsx` (`SaveFile`). -/
structure SaveFile where
  version : ℤ
  savedAt : String
  ecosystem : EcosystemState
  events : List SimulationEvent
  narration : String
deriving DecidableEq, Repr

/-- The React component state of `App.tsx` that the claims are about:
the `useState` cells `ecosystem`, `isLoading`, `events`, `narration`,
`warnings`, `error`. -/
structure AppState where
  ecosystem : Option EcosystemState
  isLoading : Bool
  events : List SimulationEvent
  narration : String
  warnings : List String
  error : Option String
deriving DecidableEq, Repr

/-- A parsed JSON save document as `handleLoad` sees it after `JSON.parse`:
every field it may look at is optional.  The state-shaped fields (`turn`,
`grid_size`, ..., mirroring `EcosystemState`) are kept because `handleLoad`
can cast the whole document to a bare `EcosystemState`. -/
structure StateDoc where
  turn : Option ℤ
  grid_size : Option ℤ
  tiles : Option (List Tile)
  species : Option (List Species)
  season : Option String
  temperature : Option ℚ
  events_log : Option (List String)
deriving DecidableEq, Repr

/-- The full parsed document `handleLoad` inspects: the state-shaped fields
plus the wrapper fields of `SaveFile` (`version`, `ecosystem`, `events`,
`narration`). -/
structure LoadDoc where
  version : Option ℤ
  ecosystem : Option StateDoc
  events : Option (List SimulationEvent)
  narration : Option String
  turn : Option ℤ
  grid_size : Option ℤ
  tiles : Option (List Tile)
  species : Option (List Species)
  season : Option String
  temperature : Option ℚ
  events_log : Option (List String)
deriving DecidableEq, Repr

/-- Serialize an `EcosystemState` into the JSON document shape (all fields
present).  This is what `JSON.stringify` produces for a state. -/
def EcosystemState.toDoc (st : EcosystemState) : StateDoc where
  turn := some st.turn
  grid_size := some st.grid_size
  tiles := some st.tiles
  species := some st.species
  season := some st.season
  temperature := some st.temperature
  events_log := some st.events_log

/-- Parse a state document back into an `EcosystemState`; fails when a field
is missing. -/
def StateDoc.toState (sd : StateDoc) : Option EcosystemState :=
  match sd.turn, sd.grid_size, sd.tiles, sd.species, sd.season, sd.temperature, sd.events_log with
  | some a, some b, some c, some d, some e, some f, some g =>
      some ⟨a, b, c, d, e, f, g⟩
  | _, _, _, _, _, _, _ => none

/-- The JSON document produced by serializing a `SaveFile` (what
`handleSave` writes to disk and `handleLoad` later parses). -/
def SaveFile.toLoadDoc (sf : SaveFile) : LoadDoc where
  version := some sf.version
  ecosystem := some sf.ecosystem.toDoc
  events := some sf.events
  narration := some sf.narration
  turn := none
  grid_size := none
  tiles := none
  species := none
  season := none
  temperature := none
  events_log := none

/-- The state-shaped projection of a parsed document: the value of
`saveData as unknown as EcosystemState` in `handleLoad`. -/
def LoadDoc.asStateDoc (d : LoadDoc) : StateDoc where
  turn := d.turn
  grid_size := d.grid_size
  tiles := d.tiles
  species := d.species
  season := d.season
  temperature := d.temperature
  events_log := d.events_log

/-- JavaScript truthiness of `saveData.version` (a number field): present
and non-zero. -/
def LoadDoc.truthyVersion (d : LoadDoc) : Bool :=
  match d.version with
  | some v => v ≠ 0
  | none => false

/-- The format-detection step of `handleLoad` (App.tsx lines 104-115),
computing `ecosystemToLoad`:
`if (saveData.version && saveData.ecosystem)` take `saveData.ecosystem`;
`else if (saveData.species && saveData.tiles)` take the document itself;
else throw `'Invalid save file format - missing required data'`. -/
def ecosystemToLoad (d : LoadDoc) : Except String StateDoc :=
  if d.truthyVersion ∧ d.ecosystem.isSome then
    match d.ecosystem with
    | some e => .ok e
    | none => .error "Invalid save file format - missing required data"
  else if d.species.isSome ∧ d.tiles.isSome then
    .ok d.asStateDoc
  else
    .error "Invalid save file format - missing required data"

/-- The outcome of the HTTP `POST /ecosystem/load` fetch as `loadEcosystem`
(api.ts) observes it: either an ok response carrying the state the server
returned, or a non-ok response with a status code and an optional
`detail` field in the error body (absent when the body was not JSON). -/
inductive BackendResp where
  | ok (state : EcosystemState)
  | err (status : ℕ) (detail : Option String)
deriving DecidableEq, Repr

/-- `loadEcosystem` from api.ts (lines 41-52): on a non-ok response it
throws `new Error(errorData.detail || 'Server error: ' + status)`; the `||`
is JavaScript truthiness, so an absent or empty `detail` falls back to the
generic message. -/
def loadEcosystem (resp : BackendResp) : Except String EcosystemState :=
  match resp with
  | .ok st => .ok st
  | .err status detail =>
      .error (match detail with
        | some d => if d ≠ "" then d else "Server error: " ++ toString status
        | none => "Server error: " ++ toString status)

/-- `handleSave` from App.tsx (lines 67-87): returns `none` when there is no
ecosystem (the early `if (!ecosystem) return`), otherwise the `SaveFile`
document it serializes and downloads.  `now` is the value of
`new Date().toISOString()`, an external clock reading passed in explicitly. -/
def handleSave (app : AppState) (now : String) : Option SaveFile :=
  match app.ecosystem with
  | none => none
  | some st => some
      { version := 1
        savedAt := now
        ecosystem := st
        events := app.events
        narration := app.narration }

/-- `handleLoad` from App.tsx (lines 90-130) as a state transition on the
component state.  `parsed` is the result of `JSON.parse` on the file text
(`none` = the text was not valid JSON, which throws `'Invalid JSON file'`);
`backend` is the `loadEcosystem` call sending the chosen document to the
server.  On any thrown error the catch branch only sets `error` to
`'Failed to load: ' + message`; the `finally` branch clears `isLoading`. -/
def handleLoad (app : AppState) (parsed : Option LoadDoc)
    (backend : StateDoc → Except String EcosystemState) : AppState :=
  let failed : String → AppState := fun msg =>
    { app with error := some ("Failed to load: " ++ msg), isLoading := false }
  match parsed with
  | none => failed "Invalid JSON file"
  | some d =>
      match ecosystemToLoad d with
      | .error msg => failed msg
      | .ok sd =>
          match backend sd with
          | .error msg => failed msg
          | .ok st =>
              { app with
                ecosystem := some st
                events := d.events.getD []
                narration :=
                  match d.narration with
                  | some s => if s ≠ "" then s else "Save file loaded successfully!"
                  | none => "Save file loaded successfully!"
                warnings := []
                error := none
                isLoading := false }

/-- `handleAdvanceTurn` from App.tsx (lines 47-64) as a state transition.
`result` is the outcome of the awaited `advanceTurn` fetch.  The early
`if (!ecosystem) return` leaves the state untouched; on success all four of
`ecosystem`, `events`, `narration`, `warnings` are replaced; on failure only
`error` is set. -/
def handleAdvanceTurn (app : AppState)
    (result : Except String SimulationResult) : AppState :=
  match app.ecosystem with
  | none => app
  | some _ =>
      match result with
      | .ok r =>
          { app with
            ecosystem := some r.new_state
            events := r.events
            narration := r.narration
            warnings := r.warnings
            error := none
            isLoading := false }
      | .error _ =>
          { app with
            error := some "Failed to advance simulation. Check the backend logs."
            isLoading := false }

/-- Modelled from the spec: the Trophic Graph Validator (§4.2), which lives
in the backend and is not under src/.  It checks unique species names;
unique tile coordinates covering the full `grid_size × grid_size` grid;
that every prey/predator reference resolves; symmetry of prey/predator
sets; that producers have empty prey; and the numeric domains
(population ≥ 0, elevation and vegetation in [0,100], water_level ≥ 0,
reproduction_rate > 0, territory_size > 0). -/
def validState (st : EcosystemState) : Prop :=
  (st.species.map Species.name).Nodup ∧
  (st.tiles.map (fun t => (t.x, t.y))).Nodup ∧
  (st.tiles.length : ℤ) = st.grid_size * st.grid_size ∧
  (∀ t ∈ st.tiles, 0 ≤ t.x ∧ t.x < st.grid_size ∧ 0 ≤ t.y ∧ t.y < st.grid_size) ∧
  (∀ sp ∈ st.species, ∀ n ∈ sp.prey ++ sp.predators, n ∈ st.species.map Species.name) ∧
  (∀ a ∈ st.species, ∀ b ∈ st.species, (b.name ∈ a.prey ↔ a.name ∈ b.predators)) ∧
  (∀ sp ∈ st.species, sp.diet = DietType.producer → sp.prey = []) ∧
  (∀ sp ∈ st.species, 0 ≤ sp.population ∧ 0 < sp.reproduction_rate ∧ 0 < sp.territory_size) ∧
  (∀ t ∈ st.tiles, 0 ≤ t.elevation ∧ t.elevation ≤ 100 ∧
    0 ≤ t.vegetation ∧ t.vegetation ≤ 100 ∧ 0 ≤ t.water_level)

instance : DecidablePred validState := fun st => by
  unfold validState; infer_instance

/-- Modelled from the spec: the backend `load` operation (§4.7, §6), which
is not under src/.  It parses the posted document into an `EcosystemState`,
always runs the Trophic Graph Validator before installing the state, and on
success returns the installed state unchanged; a malformed document or a
validator failure rejects the load. -/
def specLoad (sd : StateDoc) : Except String EcosystemState :=
  match sd.toState with
  | none => .error "Invalid ecosystem state"
  | some st =>
      if validState st then .ok st
      else .error "Ecosystem failed validation"

/-- The field names `JSON.stringify` emits for an `InterventionRequest`
(api.ts line 24 serializes the object verbatim; an `undefined` optional
field is omitted). -/
def jsonFields (i : InterventionRequest) : List String :=
  "action" :: (match i.details with | some _ => ["details"] | none => [])

/-- `handleAdvance` from the ControlPanel component: the intervention object
it passes to `onAdvanceTurn`.  With an empty type or option selection it
calls `onAdvanceTurn()` with no intervention (`none`); otherwise it builds
`{ action, details }` via the `switch`, where `details` starts as `''` and
is only filled for the tile-bearing kinds. -/
def controlPanelIntervention (interventionType selectedOption : String)
    (selectedTile : Option (ℤ × ℤ)) : Option InterventionRequest :=
  if interventionType = "" ∨ selectedOption = "" then none
  else
    let tileAt : String → String := fun pre =>
      match selectedTile with
      | some (x, y) => pre ++ " (" ++ toString x ++ ", " ++ toString y ++ ")"
      | none => ""
    let pair : String × String :=
      if interventionType = "introduce_species" then
        ("Introduce " ++ selectedOption ++ " to the ecosystem", tileAt "at tile")
      else if interventionType = "remove_species" then
        ("Remove all " ++ selectedOption ++ " from the ecosystem", "")
      else if interventionType = "natural_disaster" then
        ("Trigger a " ++ selectedOption, tileAt "centered at tile")
      else if interventionType = "change_climate" then
        (selectedOption ++ " affects the ecosystem", "")
      else ("", "")
    some ⟨pair.1, some pair.2⟩

/-- The `dietOrder` table of `SpeciesPanel.tsx`:
`{ producer: 0, herbivore: 1, omnivore: 2, carnivore: 3 }`. -/
def dietOrder : DietType → ℤ
  | .producer => 0
  | .herbivore => 1
  | .omnivore => 2
  | .carnivore => 3

/-- `[...species].sort((a, b) => dietOrder[a.diet] - dietOrder[b.diet])`
from `SpeciesPanel.tsx` (JavaScript `Array.sort` is stable, modelled by a
stable merge sort on the same key). -/
def sortedSpecies (l : List Species) : List Species :=
  l.mergeSort (fun a b => dietOrder a.diet ≤ dietOrder b.diet)

/-- `Number.prototype.toFixed(1)`: one-decimal rendering by rounding
`q * 10` to the nearest integer. -/
def toFixed1 (q : ℚ) : String :=
  let n : ℤ := round (q * 10)
  toString (n / 10) ++ "." ++ toString (n % 10).natAbs

/-- `formatPopulation` from `SpeciesPanel.tsx`. -/
def formatPopulation (pop : ℤ) : String :=
  if pop ≥ 10000 then toFixed1 ((pop : ℚ) / 1000) ++ "k"
  else if pop ≥ 1000 then toFixed1 ((pop : ℚ) / 1000) ++ "k"
  else toString pop

/-- The population cell `SpeciesPanel` renders for one species:
`isExtinct ? 'EXTINCT' : formatPopulation(s.population)` with
`isExtinct = (population === 0)`. -/
def speciesDisplay (s : Species) : String :=
  if s.population = 0 then "EXTINCT" else formatPopulation s.population

/-- The list of rows `SpeciesPanel` renders: one row per element of
`sortedSpecies`, each pairing the species with its displayed population
cell. -/
def speciesPanelEntries (l : List Species) : List (Species × String) :=
  (sortedSpecies l).map (fun s => (s, speciesDisplay s))

/-- The `ecosystemHealth` memo of `EcosystemViewport` (the unnamed viewport
component, lines 84-106).  The argument is `Option` because the component
guards `if (!species || species.length === 0) return 1.0`. -/
def ecosystemHealth (species : Option (List Species)) : ℚ :=
  match species with
  | none => 1
  | some l =>
      if l.length = 0 then 1
      else
        let plants := l.filter (fun s => s.diet = DietType.producer)
        let totalPlants : ℤ := (plants.map Species.population).sum
        let plantHealth : ℚ := min 1 ((totalPlants : ℚ) / 2000)
        let aliveSpecies : ℕ := (l.filter (fun s => 0 < s.population)).length
        let diversityHealth : ℚ := (aliveSpecies : ℚ) / (l.length : ℚ)
        let herbivores := l.filter (fun s => s.diet = DietType.herbivore)
        let carnivores := l.filter (fun s => s.diet = DietType.carnivore)
        let totalHerbivores : ℤ := (herbivores.map Species.population).sum
        let totalCarnivores : ℤ := (carnivores.map Species.population).sum
        let balanceHealth : ℚ :=
          if 0 < totalHerbivores ∧ 0 < totalCarnivores then 1 else 0.5
        plantHealth * 0.4 + diversityHealth * 0.4 + balanceHealth * 0.2

/-- The RGBA pixel data loaded from `elevation.png` as `SpeciesMarkers`
sees it: the flat byte array plus the image dimensions. -/
structure ElevImage where
  data : List ℕ
  width : ℕ
  height : ℕ
deriving DecidableEq, Repr

/-- A rendered marker, from the `markers` memo of `SpeciesMarkers`
(`{ position, color, size }`). -/
structure Marker where
  position : ℚ × ℚ × ℚ
  color : String
  size : ℚ
deriving DecidableEq, Repr

/-- `getElevationAt` from `SpeciesMarkers`: clamp the UV pair to [0,1],
convert to pixel coordinates, and read the red channel normalized to
[0,1].  The `!elevationData` early return is handled by the caller
(`markers` returns `[]` then); the `width === 0` guard is kept here. -/
def getElevationAt (img : ElevImage) (u v : ℚ) : ℚ :=
  if img.width = 0 then 0
  else
    let clampedU := max 0 (min 1 u)
    let clampedV := max 0 (min 1 v)
    let px : ℤ := ⌊clampedU * ((img.width : ℚ) - 1)⌋
    let py : ℤ := ⌊clampedV * ((img.height : ℚ) - 1)⌋
    let idx : ℤ := (py * img.width + px) * 4
    (img.data.getD idx.toNat 0 : ℚ) / 255

/-- The `DIET_COLORS` table of `SpeciesMarkers` (the `|| '#FFFFFF'`
fallback is unreachable because `diet` is the closed `DietType` union). -/
def dietColor : DietType → String
  | .producer => "#00FF00"
  | .herbivore => "#00BFFF"
  | .carnivore => "#FF0000"
  | .omnivore => "#FF8C00"

/-- `dotCount` for one species:
`Math.min(50, Math.max(3, Math.floor(Math.log10(s.population + 1) * 10)))`.
`Math.log10` is a transcendental library function, passed in as the
parameter `log10`. -/
def dotCount (log10 : ℚ → ℚ) (pop : ℤ) : ℕ :=
  (min 50 (max 3 ⌊log10 ((pop : ℚ) + 1) * 10⌋)).toNat

/-- `size` for one species' dots:
`0.15 + Math.log10(s.population + 1) * 0.05`. -/
def dotSize (log10 : ℚ → ℚ) (pop : ℤ) : ℚ :=
  0.15 + log10 ((pop : ℚ) + 1) * 0.05

/-- The inner `while (placed < dotCount && attempts < dotCount * 20)` loop
of the `markers` memo, placing dots for one species.  `rng k` is the pair
of `Math.random()` values drawn on attempt number `k`; `fuel` is the number
of attempts left (`dotCount * 20 - attempts`); `placed` counts placed dots.
Returns the markers pushed for this species and the next random index.
A dot is skipped when the sampled elevation is below the clip threshold
0.15; otherwise it is placed at the derived world coordinates. -/
def placeDots (img : ElevImage) (terrainSize : ℚ) (terrainPosition : ℚ × ℚ × ℚ)
    (color : String) (size : ℚ) (dc : ℕ) (rng : ℕ → ℚ × ℚ) :
    ℕ → ℕ → ℕ → List Marker × ℕ
  | 0, _, k => ([], k)
  | fuel + 1, placed, k =>
      if placed < dc then
        let u := (rng k).1
        let v := (rng k).2
        let elevation := getElevationAt img u v
        if elevation < 0.15 then
          placeDots img terrainSize terrainPosition color size dc rng fuel placed (k + 1)
        else
          let worldX := (u - 0.5) * terrainSize + terrainPosition.1
          let worldZ := (v - 0.5) * terrainSize + terrainPosition.2.2
          let worldY := terrainPosition.2.1 + elevation * 1 + 0.1
          let rest :=
            placeDots img terrainSize terrainPosition color size dc rng fuel (placed + 1) (k + 1)
          (⟨(worldX, worldY, worldZ), color, size⟩ :: rest.1, rest.2)
      else ([], k)

/-- The outer `for (const s of activeSpecies)` loop of the `markers` memo,
threading the random index across species and recording which species each
group of dots was pushed for. -/
def markerGroups (log10 : ℚ → ℚ) (img : ElevImage) (terrainSize : ℚ)
    (terrainPosition : ℚ × ℚ × ℚ) (rng : ℕ → ℚ × ℚ) :
    List Species → ℕ → List (Species × List Marker)
  | [], _ => []
  | s :: rest, k =>
      let dc := dotCount log10 s.population
      let placedHere := placeDots img terrainSize terrainPosition
        (dietColor s.diet) (dotSize log10 s.population) dc rng (dc * 20) 0 k
      (s, placedHere.1) ::
        markerGroups log10 img terrainSize terrainPosition rng rest placedHere.2

/-- The `markers` memo of `SpeciesMarkers` (flattened result list):
`if (!elevationData || imageSize.width === 0) return []`, then filter to
`activeSpecies = species.filter(s => s.population > 0)` and push each
species' dots in order. -/
def speciesMarkers (log10 : ℚ → ℚ) (img : Option ElevImage) (terrainSize : ℚ)
    (terrainPosition : ℚ × ℚ × ℚ) (rng : ℕ → ℚ × ℚ) (species : List Species)
    (k : ℕ) : List Marker :=
  match img with
  | none => []
  | some im =>
      if im.width = 0 then []
      else
        ((markerGroups log10 im terrainSize terrainPosition rng
            (species.filter (fun s => 0 < s.population)) k).map Prod.snd).flatten

/-- A concrete one-tile ecosystem used to instantiate theorems with
hypotheses on concrete inputs. -/
def sampleState : EcosystemState where
  turn := 0
  grid_size := 1
  tiles := [⟨0, 0, .grassland, 50, 0, 80, ["Grass"]⟩]
  species := [⟨"Grass", 1000, .producer, [], [], .grassland, 1, 1⟩]
  season := "spring"
  temperature := 15
  events_log := []

/-- A concrete component state holding `sampleState`. -/
def sampleApp : AppState where
  ecosystem := some sampleState
  isLoading := false
  events := []
  narration := ""
  warnings := []
  error := none

/-- Claim C5: `handleSave` produces exactly
`{ version: 1, savedAt: timestamp, ecosystem, events, narration }` from the
current component state (`now` is the `new Date().toISOString()` reading). -/
theorem handleSave_shape (app : AppState) (st : EcosystemState) (now : String)
    (h : app.ecosystem = some st) :
    handleSave app now = some
      { version := 1, savedAt := now, ecosystem := st,
        events := app.events, narration := app.narration } := by
  simp [handleSave, h]

/-- Witness for C5 at the concrete sample state. -/
theorem handleSave_shape_witness :
    handleSave sampleApp "2024-01-01T00:00:00.000Z" = some
      { version := 1, savedAt := "2024-01-01T00:00:00.000Z",
        ecosystem := sampleState, events := [], narration := "" } :=
  handleSave_shape sampleApp sampleState "2024-01-01T00:00:00.000Z" rfl

/-- Claim C7: `handleAdvanceTurn` is atomic from the client's perspective:
on a successful advance all four of `ecosystem`, `events`, `narration`,
`warnings` are replaced by the result's values (and `error` is cleared); on
a failed advance none of the four change and only `error` is set. -/
theorem handleAdvanceTurn_atomic (app : AppState) (st : EcosystemState)
    (r : Except String SimulationResult) (h : app.ecosystem = some st) :
    (∀ res, r = .ok res →
      (handleAdvanceTurn app r).ecosystem = some res.new_state ∧
      (handleAdvanceTurn app r).events = res.events ∧
      (handleAdvanceTurn app r).narration = res.narration ∧
      (handleAdvanceTurn app r).warnings = res.warnings ∧
      (handleAdvanceTurn app r).error = none) ∧
    (∀ msg, r = .error msg →
      (handleAdvanceTurn app r).ecosystem = app.ecosystem ∧
      (handleAdvanceTurn app r).events = app.events ∧
      (handleAdvanceTurn app r).narration = app.narration ∧
      (handleAdvanceTurn app r).warnings = app.warnings ∧
      (handleAdvanceTurn app r).error =
        some "Failed to advance simulation. Check the backend logs.") := by
  constructor
  · rintro res rfl
    simp [handleAdvanceTurn, h]
  · rintro msg rfl
    simp [handleAdvanceTurn, h]

/-- Witness for C7: a concrete failed advance changes none of the four
simulation fields. -/
theorem handleAdvanceTurn_atomic_witness :
    (handleAdvanceTurn sampleApp (.error "boom")).ecosystem = sampleApp.ecosystem ∧
    (handleAdvanceTurn sampleApp (.error "boom")).events = sampleApp.events ∧
    (handleAdvanceTurn sampleApp (.error "boom")).narration = sampleApp.narration ∧
    (handleAdvanceTurn sampleApp (.error "boom")).warnings = sampleApp.warnings ∧
    (handleAdvanceTurn sampleApp (.error "boom")).error =
      some "Failed to advance simulation. Check the backend logs." :=
  (handleAdvanceTurn_atomic sampleApp sampleState (.error "boom") rfl).2 "boom" rfl

/-- Claim C3: when the file text is not valid JSON, or the parsed document
matches neither accepted format, `handleLoad` leaves the ecosystem
unchanged and surfaces a descriptive `Failed to load: ...` message. -/
theorem handleLoad_failure_unchanged (app : AppState) (parsed : Option LoadDoc)
    (backend : StateDoc → Except String EcosystemState)
    (h : parsed = none ∨ ∃ d msg, parsed = some d ∧ ecosystemToLoad d = .error msg) :
    (handleLoad app parsed backend).ecosystem = app.ecosystem ∧
    ∃ msg, (handleLoad app parsed backend).error = some ("Failed to load: " ++ msg) := by
  rcases h with rfl | ⟨d, msg, rfl, hd⟩
  · exact ⟨rfl, "Invalid JSON file", rfl⟩
  · refine ⟨?_, msg, ?_⟩ <;> simp [handleLoad, hd]

/-- Witness for C3: a non-JSON file leaves the sample state in place. -/
theorem handleLoad_failure_unchanged_witness :
    (handleLoad sampleApp none specLoad).ecosystem = sampleApp.ecosystem ∧
    ∃ msg, (handleLoad sampleApp none specLoad).error =
      some ("Failed to load: " ++ msg) :=
  handleLoad_failure_unchanged sampleApp none specLoad (Or.inl rfl)

/-- Claim C4: when the backend load request fails with a response carrying
a `detail` message, `loadEcosystem` throws exactly that message, and
`handleLoad` keeps the prior ecosystem as the active one. -/
theorem loadEcosystem_error_detail (app : AppState) (parsed : Option LoadDoc)
    (status : ℕ) (detail : String) (hd : detail ≠ "") :
    loadEcosystem (.err status (some detail)) = .error detail ∧
    (handleLoad app parsed
        (fun _ => loadEcosystem (.err status (some detail)))).ecosystem
      = app.ecosystem := by
  refine ⟨by simp [loadEcosystem, hd], ?_⟩
  cases parsed with
  | none => rfl
  | some d =>
      unfold handleLoad
      cases h2 : ecosystemToLoad d <;> simp [h2, loadEcosystem, hd]

/-- Witness for C4 at a concrete rejected load. -/
theorem loadEcosystem_error_detail_witness :
    loadEcosystem (.err 400 (some "Invalid ecosystem state")) =
      .error "Invalid ecosystem state" ∧
    (handleLoad sampleApp none
        (fun _ => loadEcosystem (.err 400 (some "Invalid ecosystem state")))).ecosystem
      = sampleApp.ecosystem :=
  loadEcosystem_error_detail sampleApp none 400 "Invalid ecosystem state" (by decide)

/-- Claim C1: save/load round trip.  For a valid state, `handleSave`
produces a document whose `ecosystem` field is what `handleLoad`'s format
detection extracts, the (spec-modelled) backend load returns it unchanged,
and the state `handleLoad` installs is field-for-field equal to the saved
one. -/
theorem save_load_roundtrip (app : AppState) (st : EcosystemState) (now : String)
    (happ : app.ecosystem = some st) (hv : validState st) :
    ∃ sf, handleSave app now = some sf ∧
      sf.ecosystem = st ∧
      ecosystemToLoad sf.toLoadDoc = .ok st.toDoc ∧
      specLoad st.toDoc = .ok st ∧
      (handleLoad app (some sf.toLoadDoc) specLoad).ecosystem = some st := by
  refine ⟨_, handleSave_shape app st now happ, rfl, ?_, ?_, ?_⟩
  · simp [ecosystemToLoad, SaveFile.toLoadDoc, LoadDoc.truthyVersion]
  · simp [specLoad, StateDoc.toState, EcosystemState.toDoc, hv]
  · simp [handleLoad, ecosystemToLoad, SaveFile.toLoadDoc, LoadDoc.truthyVersion,
      specLoad, StateDoc.toState, EcosystemState.toDoc, hv]

/-- Witness for C1 at the concrete sample state (which passes the
validator). -/
theorem save_load_roundtrip_witness :
    ∃ sf, handleSave sampleApp "2024-01-01T00:00:00.000Z" = some sf ∧
      sf.ecosystem = sampleState ∧
      ecosystemToLoad sf.toLoadDoc = .ok sampleState.toDoc ∧
      specLoad sampleState.toDoc = .ok sampleState ∧
      (handleLoad sampleApp (some sf.toLoadDoc) specLoad).ecosystem
        = some sampleState :=
  save_load_roundtrip sampleApp sampleState "2024-01-01T00:00:00.000Z" rfl (by decide)

/-- A parsed document with `version: 0` alongside a present `ecosystem`
field and no bare state fields: it has both wrapper fields, yet the
JavaScript truthiness test `saveData.version && saveData.ecosystem` fails
on it. -/
def versionZeroDoc : LoadDoc where
  version := some 0
  ecosystem := some sampleState.toDoc
  events := none
  narration := none
  turn := none
  grid_size := none
  tiles := none
  species := none
  season := none
  temperature := none
  events_log := none

/-- Counterexample to claim C2 as stated: `versionZeroDoc` has a `version`
field and an `ecosystem` field, but `handleLoad`'s detection does not load
the ecosystem field — it rejects the document, because the code tests
truthiness (`saveData.version &&`) rather than presence and `0` is falsy. -/
theorem format_detection_counterexample :
    versionZeroDoc.version.isSome = true ∧
    versionZeroDoc.ecosystem.isSome = true ∧
    ecosystemToLoad versionZeroDoc =
      .error "Invalid save file format - missing required data" := by
  refine ⟨rfl, rfl, ?_⟩
  simp [ecosystemToLoad, versionZeroDoc, LoadDoc.truthyVersion]

/-- Claim C2 as amended: detection keys on truthiness, not presence.  If the
document has a truthy (present and non-zero) `version` and a present
`ecosystem`, the ecosystem field is loaded; otherwise, if it has `species`
and `tiles` fields, the document itself is loaded as a bare state; otherwise
loading fails with the invalid-format error. -/
theorem format_detection (d : LoadDoc) :
    (d.truthyVersion = true → ∀ e, d.ecosystem = some e → ecosystemToLoad d = .ok e) ∧
    (¬(d.truthyVersion = true ∧ d.ecosystem.isSome = true) →
      d.species.isSome = true → d.tiles.isSome = true →
      ecosystemToLoad d = .ok d.asStateDoc) ∧
    (¬(d.truthyVersion = true ∧ d.ecosystem.isSome = true) →
      ¬(d.species.isSome = true ∧ d.tiles.isSome = true) →
      ecosystemToLoad d = .error "Invalid save file format - missing required data") := by
  refine ⟨?_, ?_, ?_⟩
  · intro hv e he
    simp [ecosystemToLoad, hv, he]
  · intro hw hs ht
    simp only [ecosystemToLoad, Option.isSome] at *
    rw [if_neg, if_pos]
    · exact ⟨hs, ht⟩
    · exact hw
  · intro hw hb
    simp only [ecosystemToLoad] at *
    rw [if_neg hw, if_neg hb]

/-- Witness for the amended C2: a document with `version: 1` and a present
`ecosystem` field extracts that field. -/
theorem format_detection_witness :
    ecosystemToLoad (SaveFile.toLoadDoc
        ⟨1, "2024-01-01T00:00:00.000Z", sampleState, [], ""⟩) =
      .ok sampleState.toDoc :=
  (format_detection (SaveFile.toLoadDoc
      ⟨1, "2024-01-01T00:00:00.000Z", sampleState, [], ""⟩)).1
    (by decide) sampleState.toDoc rfl

/-- Counterexample to claim C6 as stated: the intervention the ControlPanel
builds for a concrete "remove Fox" advance is serialized with fields
`action` and `details` — neither a `kind` nor a `payload` field is sent. -/
theorem intervention_shape_counterexample :
    controlPanelIntervention "remove_species" "Fox" none =
      some ⟨"Remove all Fox from the ecosystem", some ""⟩ ∧
    "kind" ∉ jsonFields ⟨"Remove all Fox from the ecosystem", some ""⟩ ∧
    "payload" ∉ jsonFields ⟨"Remove all Fox from the ecosystem", some ""⟩ := by
  refine ⟨by decide, by decide, by decide⟩

/-- Claim C6 as amended: every intervention the frontend can send to the
advance operation is serialized with exactly the fields of
`InterventionRequest` — a required `action` string and an optional
`details` string — and every intervention the ControlPanel actually builds
carries both fields. -/
theorem intervention_shape (t o : String) (tile : Option (ℤ × ℤ))
    (j : InterventionRequest) (h : controlPanelIntervention t o tile = some j) :
    jsonFields j = ["action", "details"] ∧
    ∀ i : InterventionRequest,
      jsonFields i = ["action"] ∨ jsonFields i = ["action", "details"] := by
  constructor
  · unfold controlPanelIntervention at h
    split at h
    · exact absurd h (by simp)
    · simp only [Option.some.injEq] at h
      subst h
      rfl
  · intro i
    cases hi : i.details with
    | none => left; simp [jsonFields, hi]
    | some s => right; simp [jsonFields, hi]

/-- Witness for the amended C6 at the concrete "remove Fox" intervention. -/
theorem intervention_shape_witness :
    jsonFields ⟨"Remove all Fox from the ecosystem", some ""⟩ =
      ["action", "details"] :=
  (intervention_shape "remove_species" "Fox" none
    ⟨"Remove all Fox from the ecosystem", some ""⟩ (by decide)).1

/-- Claim C8: `SpeciesPanel` renders exactly one row per species in the
state's species collection (the rendered rows are a permutation of the
collection — nothing is removed on extinction), and a species whose
population is 0 is shown with the `EXTINCT` label. -/
theorem speciesPanel_extinct_persist (l : List Species) :
    ((speciesPanelEntries l).map Prod.fst).Perm l ∧
    ∀ p ∈ speciesPanelEntries l, p.1.population = 0 → p.2 = "EXTINCT" := by
  constructor
  · have hcomp : Prod.fst ∘ (fun s : Species => (s, speciesDisplay s)) = id := rfl
    have : (speciesPanelEntries l).map Prod.fst = sortedSpecies l := by
      rw [speciesPanelEntries, List.map_map, hcomp, List.map_id]
    rw [this]
    exact List.mergeSort_perm l _
  · intro p hp h0
    simp only [speciesPanelEntries, List.mem_map] at hp
    obtain ⟨s, _, rfl⟩ := hp
    simp only at h0 ⊢
    simp [speciesDisplay, h0]

/-- Witness for C8: a species with population 0 is rendered, with the
`EXTINCT` label. -/
theorem speciesPanel_extinct_persist_witness :
    (⟨"Fox", 0, .carnivore, ["Rabbit"], [], .forest, 1, 4⟩,
      "EXTINCT") ∈ speciesPanelEntries
        [⟨"Fox", 0, .carnivore, ["Rabbit"], [], .forest, 1, 4⟩] ∧
    "EXTINCT" = "EXTINCT" := by
  have hmem : (⟨"Fox", 0, .carnivore, ["Rabbit"], [], .forest, 1, 4⟩,
      "EXTINCT") ∈ speciesPanelEntries
        [⟨"Fox", 0, .carnivore, ["Rabbit"], [], .forest, 1, 4⟩] := by
    simp [speciesPanelEntries, sortedSpecies, speciesDisplay]
  exact ⟨hmem,
    (speciesPanel_extinct_persist
        [⟨"Fox", 0, .carnivore, ["Rabbit"], [], .forest, 1, 4⟩]).2
      (⟨"Fox", 0, .carnivore, ["Rabbit"], [], .forest, 1, 4⟩, "EXTINCT")
      hmem rfl⟩

/-- Claim C9: the derived `ecosystemHealth` metric lies in `[0, 1]` for
every species list with nonnegative populations, and is exactly `1.0` for
an empty or missing species list. -/
theorem ecosystemHealth_bounds (l : List Species)
    (h : ∀ s ∈ l, 0 ≤ s.population) :
    0 ≤ ecosystemHealth (some l) ∧ ecosystemHealth (some l) ≤ 1 ∧
    ecosystemHealth none = 1 ∧ ecosystemHealth (some []) = 1 := by
  by_cases hl : l.length = 0
  · refine ⟨?_, ?_, rfl, rfl⟩ <;> simp [ecosystemHealth, hl]
  · have hsum : (0 : ℤ) ≤
        ((l.filter (fun s => s.diet = DietType.producer)).map Species.population).sum := by
      apply List.sum_nonneg
      intro x hx
      obtain ⟨s, hs, rfl⟩ := List.mem_map.mp hx
      exact h s (List.mem_of_mem_filter hs)
    have h1 : (0 : ℚ) ≤ min 1
        ((((l.filter (fun s => s.diet = DietType.producer)).map Species.population).sum : ℚ) / 2000) := by
      refine le_min (by norm_num) (div_nonneg ?_ (by norm_num))
      exact_mod_cast hsum
    have h2 : min 1
        ((((l.filter (fun s => s.diet = DietType.producer)).map Species.population).sum : ℚ) / 2000) ≤ 1 :=
      min_le_left _ _
    have hlen : (0 : ℚ) < (l.length : ℚ) := by
      have : 0 < l.length := Nat.pos_of_ne_zero hl
      exact_mod_cast this
    have h3 : (0 : ℚ) ≤
        ((l.filter (fun s => 0 < s.population)).length : ℚ) / (l.length : ℚ) :=
      div_nonneg (Nat.cast_nonneg _) (Nat.cast_nonneg _)
    have h4 : ((l.filter (fun s => 0 < s.population)).length : ℚ) / (l.length : ℚ) ≤ 1 := by
      rw [div_le_one hlen]
      exact_mod_cast List.length_filter_le _ l
    have h5 : (0 : ℚ) ≤
        (if 0 < ((l.filter (fun s => s.diet = DietType.herbivore)).map Species.population).sum ∧
            0 < ((l.filter (fun s => s.diet = DietType.carnivore)).map Species.population).sum
          then (1 : ℚ) else 0.5) ∧
        (if 0 < ((l.filter (fun s => s.diet = DietType.herbivore)).map Species.population).sum ∧
            0 < ((l.filter (fun s => s.diet = DietType.carnivore)).map Species.population).sum
          then (1 : ℚ) else 0.5) ≤ 1 := by
      constructor <;> split <;> norm_num
    refine ⟨?_, ?_, rfl, rfl⟩ <;>
    · simp only [ecosystemHealth]
      rw [if_neg hl]
      obtain ⟨h5a, h5b⟩ := h5
      nlinarith [h1, h2, h3, h4, h5a, h5b]

/-- Witness for C9 at the concrete sample species list. -/
theorem ecosystemHealth_bounds_witness :
    0 ≤ ecosystemHealth (some sampleState.species) ∧
    ecosystemHealth (some sampleState.species) ≤ 1 ∧
    ecosystemHealth none = 1 ∧ ecosystemHealth (some []) = 1 :=
  ecosystemHealth_bounds sampleState.species (by decide)

/-- The inner placement loop of `SpeciesMarkers` never pushes more than
`dotCount - placed` dots (the loop guard `placed < dotCount`). -/
lemma placeDots_length (img : ElevImage) (terrainSize : ℚ)
    (terrainPosition : ℚ × ℚ × ℚ) (color : String) (size : ℚ) (dc : ℕ)
    (rng : ℕ → ℚ × ℚ) :
    ∀ fuel placed k,
      (placeDots img terrainSize terrainPosition color size dc rng fuel placed k).1.length
        ≤ dc - placed := by
  intro fuel
  induction fuel with
  | zero => intro placed k; simp [placeDots]
  | succ n ih =>
      intro placed k
      unfold placeDots
      dsimp only
      split
      case isTrue hlt =>
        split
        case isTrue he => exact ih placed (k + 1)
        case isFalse he =>
          simp only [List.length_cons]
          have := ih (placed + 1) (k + 1)
          omega
      case isFalse hlt => simp

/-- `dotCount` is capped at 50 by the outer `Math.min`. -/
lemma dotCount_le_fifty (log10 : ℚ → ℚ) (pop : ℤ) :
    dotCount log10 pop ≤ 50 := by
  unfold dotCount
  have := min_le_left (50 : ℤ) (max 3 ⌊log10 ((pop : ℚ) + 1) * 10⌋)
  omega

/-- Every group the outer loop of `SpeciesMarkers` records comes from a
species of the filtered list and holds at most `dotCount` dots. -/
lemma markerGroups_spec (log10 : ℚ → ℚ) (img : ElevImage) (terrainSize : ℚ)
    (terrainPosition : ℚ × ℚ × ℚ) (rng : ℕ → ℚ × ℚ) :
    ∀ (l : List Species) (k : ℕ)
      (g : Species × List Marker),
      g ∈ markerGroups log10 img terrainSize terrainPosition rng l k →
        g.1 ∈ l ∧ g.2.length ≤ dotCount log10 g.1.population := by
  intro l
  induction l with
  | nil => intro k g hg; simp [markerGroups] at hg
  | cons s rest ih =>
      intro k g hg
      unfold markerGroups at hg
      dsimp only at hg
      rcases List.mem_cons.mp hg with rfl | hmem
      · refine ⟨List.mem_cons_self _ _, ?_⟩
        have := placeDots_length img terrainSize terrainPosition
          (dietColor s.diet) (dotSize log10 s.population)
          (dotCount log10 s.population) rng (dotCount log10 s.population * 20) 0 k
        simpa using this
      · obtain ⟨hm, hlen⟩ := ih _ g hmem
        exact ⟨List.mem_cons_of_mem _ hm, hlen⟩

/-- Claim C10: the `markers` memo is the concatenation of the dot groups of
the species with `population > 0` only, and each such species contributes
at most `dotCount ≤ 50` dots. -/
theorem speciesMarkers_bound (log10 : ℚ → ℚ) (im : ElevImage)
    (terrainSize : ℚ) (terrainPosition : ℚ × ℚ × ℚ) (rng : ℕ → ℚ × ℚ)
    (l : List Species) (k : ℕ) (him : im.width ≠ 0) :
    speciesMarkers log10 (some im) terrainSize terrainPosition rng l k =
      ((markerGroups log10 im terrainSize terrainPosition rng
          (l.filter (fun s => 0 < s.population)) k).map Prod.snd).flatten ∧
    ∀ g ∈ markerGroups log10 im terrainSize terrainPosition rng
        (l.filter (fun s => 0 < s.population)) k,
      0 < g.1.population ∧
      g.2.length ≤ dotCount log10 g.1.population ∧
      dotCount log10 g.1.population ≤ 50 := by
  constructor
  · simp [speciesMarkers, him]
  · intro g hg
    obtain ⟨hmem, hlen⟩ := markerGroups_spec log10 im terrainSize terrainPosition
      rng _ k g hg
    have hpos : 0 < g.1.population := by
      have := List.mem_filter.mp hmem
      simpa using this.2
    exact ⟨hpos, hlen, dotCount_le_fifty _ _⟩

/-- The 1x1 all-water elevation image used to instantiate the marker
bound. -/
def witnessImage : ElevImage where
  data := [0, 0, 0, 0]
  width := 1
  height := 1

/-- Witness for C10 at a concrete species, image and random stream: the
first group the loop records is bounded as the theorem states. -/
theorem speciesMarkers_bound_witness :
    0 < (⟨"Grass", 1000, DietType.producer, [], [], .grassland, 1, 1⟩ : Species).population ∧
    (placeDots witnessImage 64 (0, -3, 0)
        (dietColor DietType.producer) (dotSize (fun _ => 0) 1000)
        (dotCount (fun _ => 0) 1000) (fun _ => (0, 0))
        (dotCount (fun _ => 0) 1000 * 20) 0 0).1.length
      ≤ dotCount (fun _ => 0) 1000 ∧
    dotCount (fun _ => 0) 1000 ≤ 50 :=
  (speciesMarkers_bound (fun _ => 0) witnessImage 64 (0, -3, 0) (fun _ => (0, 0))
      [⟨"Grass", 1000, DietType.producer, [], [], .grassland, 1, 1⟩] 0 (by decide)).2
    (⟨"Grass", 1000, DietType.producer, [], [], .grassland, 1, 1⟩,
      (placeDots witnessImage 64 (0, -3, 0)
        (dietColor DietType.producer) (dotSize (fun _ => 0) 1000)
        (dotCount (fun _ => 0) 1000) (fun _ => (0, 0))
        (dotCount (fun _ => 0) 1000 * 20) 0 0).1)
    (List.Mem.head _)

end EcoSim
